import Mathlib

/-!
Shallow embedding of the serializer/field core of `src/api/base/serializers`
(`fields.py`, `validators.py`, `serializers.py`, `helpers.py`), together with
theorems settling the stated claims about that code.

Python values are modelled by `PyValue`, Python exceptions by `PyError`;
fallible code returns `Except PyError _`.  `ValidationError` (the module
`exceptions.py` is not present in the sources; its shape is taken from its
uses: it carries a `message` retrieved as `e.message`) is the
`PyError.validation` constructor; every other constructor is a fatal,
uncaught kind of error.
-/

namespace AioSerializers

/-- Python primitive values as they flow through the serializer core. -/
inductive PyValue where
  | none
  | bool (b : Bool)
  | int (n : Int)
  | str (s : String)
  | list (xs : List PyValue)
  | dict (entries : List (String × PyValue))
  | pydate (y m d : Nat)
  | pydatetime (y m d hh mm ss : Nat)

/-- Python runtime types that occur as `python_type` of a field. -/
inductive PyType where
  | str | int | bool | date | datetime | dict | list
deriving Repr, DecidableEq

/-- Python exceptions raised by the serializer core.  `validation` is the
recoverable `ValidationError` (modelled from the spec: the module
`exceptions.py` is absent from the sources; its uses show it carries a
`message`); all other constructors are fatal, uncaught error kinds. -/
inductive PyError where
  | validation (message : PyValue)
  | keyError (key : String)
  | attributeError (msg : String)
  | valueError (msg : String)
  | typeError (msg : String)
  | assertionError (msg : String)
  | notImplementedError (msg : String)

/-- Is the error the recoverable `ValidationError` kind? -/
def PyError.isValidation : PyError → Bool
  | .validation _ => true
  | _ => false

/-- Is the value Python `None`? -/
def PyValue.isNone : PyValue → Bool
  | .none => true
  | _ => false

/-- Python truthiness of a value (`bool(x)`). -/
def PyValue.truthy : PyValue → Bool
  | .none => false
  | .bool b => b
  | .int n => n != 0
  | .str s => s != ""
  | .list xs => !xs.isEmpty
  | .dict es => !es.isEmpty
  | .pydate _ _ _ => true
  | .pydatetime _ _ _ _ _ _ => true

/-- Python `isinstance`; note `bool` is a subclass of `int` in Python. -/
def isinstance : PyValue → PyType → Bool
  | .bool _, .bool => true
  | .bool _, .int => true
  | .int _, .int => true
  | .str _, .str => true
  | .list _, .list => true
  | .dict _, .dict => true
  | .pydate _ _ _, .date => true
  | .pydatetime _ _ _ _ _ _, .datetime => true
  | .pydatetime _ _ _ _ _ _, .date => true
  | _, _ => false

/-- Python `len(x)`: defined for sized values, `TypeError` otherwise. -/
def pyLen : PyValue → Except PyError Nat
  | .str s => .ok s.length
  | .list xs => .ok xs.length
  | .dict es => .ok es.length
  | _ => .error (.typeError "object has no len")

/-- `d.get(k, None)` on a dict represented as an association list
(first binding wins, as in an `OrderedDict` without duplicate keys). -/
def dictGet (entries : List (String × PyValue)) (k : String) : PyValue :=
  match entries.find? (fun p => p.1 == k) with
  | some p => p.2
  | Option.none => .none

/-- `d[k]` on a dict: `KeyError` when the key is absent. -/
def dictIndex (entries : List (String × PyValue)) (k : String) :
    Except PyError PyValue :=
  match entries.find? (fun p => p.1 == k) with
  | some p => .ok p.2
  | Option.none => .error (.keyError k)

/-! ## Validators (`validators.py`) -/

/-- The validator objects of `validators.py` that the claims exercise:
stateless rules holding their own limit. -/
inductive ValidatorObj where
  | maxLength (limit : Nat)
  | minLength (limit : Nat)
deriving Repr, DecidableEq

/-- `Validator.validate(value)`: raises `ValidationError` with a formatted
message on violation (`MaxLengthValidator` / `MinLengthValidator`). -/
def ValidatorObj.validate : ValidatorObj → PyValue → Except PyError Unit
  | .maxLength limit, v =>
      match pyLen v with
      | .error e => .error e
      | .ok n =>
          if n > limit then
            .error (.validation (.str "len is greater than limit"))
          else
            .ok ()
  | .minLength limit, v =>
      match pyLen v with
      | .error e => .error e
      | .ok n =>
          if n < limit then
            .error (.validation (.str "len is less than limit"))
          else
            .ok ()

/-! ## Fields (`fields.py`) -/

/-- Which `Field` subclass a field value is an instance of (the subclasses
whose behaviour the claims exercise).  Each subclass only overrides
`validate` / `to_internal_value` as in `fields.py`. -/
inductive FieldKind where
  | base | integer | char | boolean | date | datetime
deriving Repr, DecidableEq

/-- The attribute record every `Field` instance carries after `__init__`
(`fields.py`, `Field.__init__`).  `min_length` / `max_length` are
`Option Nat` because numeric subclasses set them to Python `None`. -/
structure Field where
  kind : FieldKind
  name : Option String
  python_type : Option PyType
  read_only : Bool
  write_only : Bool
  required : Bool
  nullable : Bool
  min_length : Option Nat
  max_length : Option Nat
  validators : List ValidatorObj
  initial : PyValue
  many : Bool

/-- The keyword arguments of `Field.__init__` with their Python defaults. -/
structure FieldOpts where
  name : Option String := Option.none
  python_type : Option PyType := some .str
  read_only : Bool := false
  write_only : Bool := false
  required : Bool := true
  initial : PyValue := .none
  nullable : Bool := false
  min_length : Option Nat := some 0
  max_length : Option Nat := some 255
  many : Bool := false
  validators : List ValidatorObj := []

/-- `Field(**kwargs)`. -/
def mkBaseField (o : FieldOpts) : Field :=
  { kind := .base, name := o.name, python_type := o.python_type,
    read_only := o.read_only, write_only := o.write_only,
    required := o.required, nullable := o.nullable,
    min_length := o.min_length, max_length := o.max_length,
    validators := o.validators, initial := o.initial, many := o.many }

/-- `IntegerField(**kwargs)`: super().__init__ then `python_type = int`. -/
def mkIntegerField (o : FieldOpts) : Field :=
  { mkBaseField o with kind := .integer, python_type := some .int }

/-- `CharField(**kwargs)`: super().__init__ then `python_type = str`. -/
def mkCharField (o : FieldOpts) : Field :=
  { mkBaseField o with kind := .char, python_type := some .str }

/-- `BooleanField(**kwargs)`: `python_type = bool`, length bounds `None`. -/
def mkBooleanField (o : FieldOpts) : Field :=
  { mkBaseField o with
    kind := .boolean
    python_type := some .bool
    min_length := Option.none
    max_length := Option.none }

/-- `DateField(**kwargs)`: `python_type = datetime.date`. -/
def mkDateField (o : FieldOpts) : Field :=
  { mkBaseField o with kind := .date, python_type := some .date }

/-- `DateTimeField(**kwargs)`: `python_type = datetime.datetime`. -/
def mkDateTimeField (o : FieldOpts) : Field :=
  { mkBaseField o with kind := .datetime, python_type := some .datetime }

/-- Truthiness of an `Option Nat` attribute (`None` and `0` are falsy). -/
def optNatTruthy : Option Nat → Bool
  | Option.none => false
  | some n => n != 0

/-- The condition of the type check of `Field.validate`: guarded by
`self.python_type and data` (Python truthiness of `data`). -/
def typeCheckFails (f : Field) (data : PyValue) : Bool :=
  match f.python_type with
  | some t => data.truthy && !(isinstance data t)
  | Option.none => false

/-- Run the attached validators in declaration order, failing on the
first violation. -/
def runValidators : List ValidatorObj → PyValue → Except PyError Unit
  | [], _ => .ok ()
  | v :: vs, data =>
      match v.validate data with
      | .error e => .error e
      | .ok _ => runValidators vs data

/-- `Field.validate(data)` (`fields.py` lines 67-81): null check, then the
guarded type check, then every attached validator in declaration order. -/
def baseValidate (f : Field) (data : PyValue) : Except PyError Unit :=
  if data.isNone ∧ f.required ∧ ¬ f.nullable then
    .error (.validation (.str "Must be not null"))
  else if typeCheckFails f data then
    .error (.validation (.str "Must be a declared type"))
  else
    runValidators f.validators data

/-- `CharField.validate(data)`: super().validate, then ad-hoc
`MaxLengthValidator` / `MinLengthValidator` runs guarded by the truthiness
of the bound and of the data. -/
def charValidate (f : Field) (data : PyValue) : Except PyError Unit :=
  match baseValidate f data with
  | .error e => .error e
  | .ok _ =>
      match (if optNatTruthy f.max_length ∧ data.truthy then
               (ValidatorObj.maxLength (f.max_length.getD 0)).validate data
             else .ok ()) with
      | .error e => .error e
      | .ok _ =>
          if optNatTruthy f.min_length ∧ data.truthy then
            (ValidatorObj.minLength (f.min_length.getD 0)).validate data
          else .ok ()

/-- Dispatch of `validate` over the field subclasses: only `CharField`
overrides it among the modelled kinds. -/
def Field.validate (f : Field) (data : PyValue) : Except PyError Unit :=
  match f.kind with
  | .char => charValidate f data
  | _ => baseValidate f data

/-! ### `strptime` (CPython `datetime.datetime.strptime`)

CPython first compiles the whole format string; a `%` followed by a
directive character it does not support raises `ValueError` before any
input is looked at.  `D` is not a supported directive in CPython; the
model supports the numeric directives that suffice for the formats the
source could have meant, which is enough because both source format
strings contain the unsupported `%D`. -/

/-- Directive characters the modelled `strptime` supports (a subset of
CPython's; like CPython's set it does not contain `D`). -/
def supportedDirective (c : Char) : Bool :=
  c = 'Y' ∨ c = 'm' ∨ c = 'd' ∨ c = 'H' ∨ c = 'M' ∨ c = 'S' ∨ c = '%'

/-- Scan a format string for bad directives, as CPython does before
matching any input. -/
def scanFormat : List Char → Except PyError Unit
  | [] => .ok ()
  | '%' :: [] => .error (.valueError "stray percent in format")
  | '%' :: c :: rest =>
      if supportedDirective c then scanFormat rest
      else .error (.valueError "bad directive in format")
  | _ :: rest => scanFormat rest

/-- Read exactly `n` leading digits as a number. -/
def readDigits : Nat → List Char → Option (Nat × List Char)
  | 0, s => some (0, s)
  | _ + 1, [] => Option.none
  | n + 1, c :: s =>
      if c.isDigit then
        match readDigits n s with
        | some (v, rest) => some ((c.toNat - '0'.toNat) * 10 ^ n + v, rest)
        | Option.none => Option.none
      else Option.none

/-- Match input characters against a scanned-clean format, collecting the
values of the numeric directives in order. -/
def matchFormat : List Char → List Char → Option (List Nat)
  | [], [] => some []
  | '%' :: c :: fmt, s =>
      if c = '%' then
        match s with
        | c2 :: s2 => if c2 = '%' then matchFormat fmt s2 else Option.none
        | [] => Option.none
      else
        let width := if c = 'Y' then 4 else 2
        match readDigits width s with
        | some (v, rest) =>
            match matchFormat fmt rest with
            | some vs => some (v :: vs)
            | Option.none => Option.none
        | Option.none => Option.none
  | c :: fmt, c2 :: s => if c = c2 then matchFormat fmt s else Option.none
  | _, _ => Option.none

/-- `datetime.datetime.strptime(data, fmt)`: `ValueError` on a bad
directive (before reading the input) or on a non-matching input. -/
def strptime (data fmt : String) : Except PyError PyValue :=
  match scanFormat fmt.toList with
  | .error e => .error e
  | .ok _ =>
      match matchFormat fmt.toList data.toList with
      | some (y :: m :: d :: hh :: mm :: ss :: _) =>
          .ok (.pydatetime y m d hh mm ss)
      | some (y :: m :: d :: _) => .ok (.pydatetime y m d 0 0 0)
      | _ => .error (.valueError "time data does not match format")

/-- `dt.date()` on a datetime value. -/
def datetimeDate : PyValue → PyValue
  | .pydatetime y m d _ _ _ => .pydate y m d
  | v => v

/-- `Field.to_internal_value(data)` dispatched over the modelled
subclasses: the base behaviour validates and returns the data unchanged;
`DateField` / `DateTimeField` first run `strptime` on the raw input (a
`TypeError` if it is not a string) with the format strings of the source
(`%Y-%m-%D` and `%Y-%m-%DT%H:%M:%S`) and pass `dt.date()` on. -/
def Field.to_internal_value (f : Field) (data : PyValue) :
    Except PyError PyValue :=
  match f.kind with
  | .date =>
      match data with
      | .str s =>
          match strptime s "%Y-%m-%D" with
          | .error e => .error e
          | .ok dt =>
              match Field.validate f (datetimeDate dt) with
              | .error e => .error e
              | .ok _ => .ok (datetimeDate dt)
      | _ => .error (.typeError "strptime argument 1 must be str")
  | .datetime =>
      match data with
      | .str s =>
          match strptime s "%Y-%m-%DT%H:%M:%S" with
          | .error e => .error e
          | .ok dt =>
              match Field.validate f (datetimeDate dt) with
              | .error e => .error e
              | .ok _ => .ok (datetimeDate dt)
      | _ => .error (.typeError "strptime argument 1 must be str")
  | _ =>
      match Field.validate f data with
      | .error e => .error e
      | .ok _ => .ok data

/-- `Field.get_initial()`: the static initial value (the zero-argument
callable case is not exercised by the modelled templates). -/
def Field.get_initial (f : Field) : PyValue :=
  f.initial

end AioSerializers

namespace AioSerializers

/-! ## Serializer engine (`serializers.py`) -/

/-- The attribute state of a live `Serializer` instance.  `inst` is the
bound domain instance (`self.instance`, Python `None` when unbound);
`initial_data` is `some _` exactly when the `data` keyword was passed
(the attribute is only set in that case); `validated_data` / `errors` /
`dataCache` model the `_validated_data` / `_errors` / `_data` attributes,
absent until set.  `fields` is the instance field registry (the cached
result of `get_fields`). -/
structure SerializerObj where
  inst : PyValue := .none
  initial_data : Option PyValue := Option.none
  partialFlag : Bool := false
  fields : List (String × Field) := []
  validated_data : Option (List (String × PyValue)) := Option.none
  errors : Option (List (String × PyValue)) := Option.none
  dataCache : Option PyValue := Option.none

/-- `writable_fields`: the registry filtered to fields that are not
read-only, in declaration order. -/
def writableFields (fs : List (String × Field)) : List (String × Field) :=
  fs.filter (fun p => !p.2.read_only)

/-- `readable_fields`: the registry filtered to fields that are not
write-only, in declaration order. -/
def readableFields (fs : List (String × Field)) : List (String × Field) :=
  fs.filter (fun p => !p.2.write_only)

/-- Truthiness of the `errors` property (`self._errors` if present, else
`None`). -/
def SerializerObj.errorsTruthy (s : SerializerObj) : Bool :=
  match s.errors with
  | some es => !es.isEmpty
  | Option.none => false

/-- The per-field loop of `Serializer.to_internal_value` (lines 204-220).
Each iteration reads `self.initial_data` (an `AttributeError` if the
attribute was never set, a `TypeError` if it is not a dict): in partial
mode a field whose looked-up value is falsy (absent or present-but-falsy,
since the code tests `not self.initial_data.get(field_name, None)`) is
skipped; otherwise `self.initial_data[field_name]` is indexed (`KeyError`
when absent) and the field's `to_internal_value` runs, a `ValidationError`
being recorded under the field name while any other exception propagates.
The registry entries are plain fields here (the nested-serializer branch
of lines 209-214 is not exercised by the modelled templates). -/
def runFieldsLoop (partialFlag : Bool) (idata : Option PyValue) :
    List (String × Field) →
    Except PyError (List (String × PyValue) × List (String × PyValue))
  | [] => .ok ([], [])
  | (fname, fld) :: rest =>
      match idata with
      | Option.none => .error (.attributeError "initial_data")
      | some (.dict entries) =>
          if partialFlag ∧ ¬ (dictGet entries fname).truthy then
            runFieldsLoop partialFlag idata rest
          else
            match dictIndex entries fname with
            | .error e => .error e
            | .ok v =>
                match Field.to_internal_value fld v with
                | .ok w =>
                    match runFieldsLoop partialFlag idata rest with
                    | .error e => .error e
                    | .ok (vd, errs) => .ok ((fname, w) :: vd, errs)
                | .error (.validation m) =>
                    match runFieldsLoop partialFlag idata rest with
                    | .error e => .error e
                    | .ok (vd, errs) => .ok (vd, (fname, m) :: errs)
                | .error e => .error e
      | some _ => .error (.typeError "initial_data is not a dict")

/-- `Serializer.to_internal_value(data)` (lines 195-225): a
`ValidationError` if the argument is not a mapping, then the per-field
loop over the writable fields, which reads values from
`self.initial_data` (not from the argument).  Returns the pair
(validated data, recorded errors); the Python code returns the former and
stashes the latter in `self._errors` when non-empty. -/
def Serializer.to_internal_value (s : SerializerObj) (data : PyValue) :
    Except PyError (List (String × PyValue) × List (String × PyValue)) :=
  if ¬ isinstance data .dict then
    .error (.validation .none)
  else
    runFieldsLoop s.partialFlag s.initial_data (writableFields s.fields)

/-- `BaseSerializer.is_valid(raise_error)` (lines 59-67): run
`to_internal_value(self.initial_data)`; if errors were recorded keep them
(note `_errors` is only ever set, never cleared) and fail — raising when
asked to — else store `_validated_data` and succeed. -/
def Serializer.is_valid (s : SerializerObj) (raise_error : Bool) :
    Except PyError (Bool × SerializerObj) :=
  match s.initial_data with
  | Option.none => .error (.attributeError "initial_data")
  | some idata =>
      match Serializer.to_internal_value s idata with
      | .error e => .error e
      | .ok (vd, errs) =>
          let s1 := if errs.isEmpty then s else { s with errors := some errs }
          if s1.errorsTruthy then
            if raise_error then
              .error (.validation (.dict (s1.errors.getD [])))
            else
              .ok (false, s1)
          else
            .ok (true, { s1 with validated_data := some vd })

/-- `BaseSerializer.save()` (lines 69-92), with the subclass `create` /
`update` hooks passed explicitly: three assertion gates, then delegation
to `update` when an instance is bound and to `create` otherwise, each
followed by the non-null assertion on the returned instance. -/
def Serializer.save (s : SerializerObj)
    (createHook : List (String × PyValue) → Except PyError PyValue)
    (updateHook : PyValue → List (String × PyValue) → Except PyError PyValue) :
    Except PyError (PyValue × SerializerObj) :=
  if s.validated_data.isNone then
    .error (.assertionError "You must call is_valid before calling save")
  else if s.errors.isSome then
    .error (.assertionError "You must call is_valid before calling save")
  else if s.errorsTruthy then
    .error (.assertionError "You cannot call save on a serializer with invalid data")
  else
    let vd := s.validated_data.getD []
    if ¬ s.inst.isNone then
      match updateHook s.inst vd with
      | .error e => .error e
      | .ok newInst =>
          if newInst.isNone then
            .error (.assertionError "update did not return an object instance")
          else
            .ok (newInst, { s with inst := newInst })
    else
      match createHook vd with
      | .error e => .error e
      | .ok newInst =>
          if newInst.isNone then
            .error (.assertionError "create did not return an object instance")
          else
            .ok (newInst, { s with inst := newInst })

/-- `Serializer.get_initial()` (lines 180-193): when bound to raw input,
the writable fields whose looked-up input value is falsy echoed with
those values; when unbound, each writable field's own initial value. -/
def Serializer.get_initial (s : SerializerObj) : PyValue :=
  match s.initial_data with
  | some (.dict entries) =>
      .dict (((s.fields).filter
          (fun p => !(dictGet entries p.1).truthy ∧ !p.2.read_only)).map
        (fun p => (p.1, dictGet entries p.1)))
  | some _ => .dict []
  | Option.none =>
      .dict ((s.fields.filter (fun p => !p.2.read_only)).map
        (fun p => (p.1, p.2.get_initial)))

/-- `BaseSerializer.data` (lines 115-137), with `to_representation`
passed as a hook (it resolves attributes of the external domain
instance): the fatal ordering assertion, then the memoized three-way
selection of the representation source. -/
def Serializer.dataProp (s : SerializerObj)
    (toRep : PyValue → Except PyError PyValue) :
    Except PyError (PyValue × SerializerObj) :=
  if s.initial_data.isSome ∧ s.validated_data.isNone then
    .error (.assertionError "You must call is_valid before accessing data")
  else
    match s.dataCache with
    | some d => .ok (d, s)
    | Option.none =>
        match (if ¬ s.inst.isNone ∧ ¬ s.errorsTruthy then
                 toRep s.inst
               else if s.validated_data.isSome ∧ ¬ s.errorsTruthy then
                 toRep (.dict (s.validated_data.getD []))
               else
                 .ok (Serializer.get_initial s)) with
        | .error e => .error e
        | .ok d => .ok (d, { s with dataCache := some d })

end AioSerializers

namespace AioSerializers

/-! ## ListSerializer (`serializers.py` lines 260-295) -/

/-- The attribute state of a `ListSerializer` instance after `__init__`:
the child serializer (a required argument) and the `allow_empty` flag
popped with default `True`. -/
structure ListSerializerObj where
  child : SerializerObj
  allow_empty : Bool
  inst : PyValue := .none
  initial_data : Option PyValue := Option.none
  partialFlag : Bool := false

/-- `ListSerializer(child=..., allow_empty=...)`: `allow_empty` defaults
to `True` when the keyword is absent. -/
def ListSerializer.init (child : SerializerObj) (allow_empty : Option Bool) :
    ListSerializerObj :=
  { child := child, allow_empty := allow_empty.getD true }

/-- `ListSerializer.to_internal_value(data)` (lines 281-287): the child's
`to_internal_value` mapped over every element of the sequence (each call
returns the child's validated data; the child's `_errors` attribute
mutation has no effect on the returned list).  No emptiness check is
performed. -/
def ListSerializer.to_internal_value (ls : ListSerializerObj) :
    List PyValue → Except PyError (List (List (String × PyValue)))
  | [] => .ok []
  | item :: rest =>
      match Serializer.to_internal_value ls.child item with
      | .error e => .error e
      | .ok (vd, _) =>
          match ListSerializer.to_internal_value ls rest with
          | .error e => .error e
          | .ok vds => .ok (vd :: vds)

/-! ## Instance field registries as heap objects (`Serializer.get_fields`)

`Serializer.get_fields` (line 253-257) returns `copy.deepcopy` of the
class-level `_declared_fields` template.  To reason about object
identity and mutation, field objects live in a heap (a list indexed by
address); a registry maps field names to addresses.  `deepcopy` reads
the template's current field values and allocates fresh objects holding
those values (a `Field` value includes its validator list, which
`deepcopy` copies along with it). -/

/-- Read a registry's field values out of the heap. -/
def readFields (heap : List Field) (reg : List (String × Nat)) :
    List (String × Field) :=
  reg.map (fun p => (p.1, heap.getD p.2 (mkBaseField {})))

/-- Allocate fresh field objects holding the given values, returning the
extended heap and the registry of fresh addresses. -/
def allocFields (heap : List Field) :
    List (String × Field) → List Field × List (String × Nat)
  | [] => (heap, [])
  | (n, f) :: rest =>
      ((allocFields (heap ++ [f]) rest).1,
       (n, heap.length) :: (allocFields (heap ++ [f]) rest).2)

/-- `Serializer.get_fields` for one instance: deep-copy the declared-field
template (given as a registry of heap addresses) into fresh objects. -/
def Serializer.get_fields (heap : List Field) (tmpl : List (String × Nat)) :
    List Field × List (String × Nat) :=
  allocFields heap (readFields heap tmpl)

/-! ## ModelSerializer configuration check (`helpers.check_model_meta`) -/

/-- The part of a model class the configuration check consults. -/
structure ModelRef where
  abstract : Bool
deriving Repr, DecidableEq

/-- The attributes of a serializer's `Meta` block that
`check_model_meta` consults; `model` is `none` when the attribute is
absent, `fields` / `exclude` are the values `getattr` returns with
default `None`. -/
structure MetaOpts where
  model : Option ModelRef := Option.none
  fields : PyValue := .none
  exclude : PyValue := .none

/-- Is the value the `ALL_FIELDS` sentinel string `__all__`? -/
def isAllFields : PyValue → Bool
  | .str s => s == "__all__"
  | _ => false

/-- Is the value a Python list or tuple (one constructor models both)? -/
def isListOrTuple : PyValue → Bool
  | .list _ => true
  | _ => false

/-- `helpers.check_model_meta` (`helpers.py` lines 4-54): the assertion
gates run before `ModelSerializer.get_fields`, in source order — missing
`Meta`, missing `Meta.model`, abstract model, ill-typed `fields` /
`exclude` options, both options truthy, both options `None`. -/
def checkModelMeta (meta : Option MetaOpts) : Except PyError Unit :=
  match meta with
  | Option.none => .error (.assertionError "missing Meta attribute")
  | some m =>
      match m.model with
      | Option.none => .error (.assertionError "missing Meta.model attribute")
      | some mdl =>
          if mdl.abstract then
            .error (.valueError "Cannot use ModelSerializer with Abstract Models")
          else if m.fields.truthy ∧ ¬ isAllFields m.fields ∧ ¬ isListOrTuple m.fields then
            .error (.typeError "the fields option must be a list or tuple or the all-fields sentinel")
          else if m.exclude.truthy ∧ ¬ isListOrTuple m.exclude then
            .error (.typeError "the exclude option must be a list or tuple")
          else if m.fields.truthy ∧ m.exclude.truthy then
            .error (.assertionError "Cannot set both fields and exclude options")
          else if m.fields.isNone ∧ m.exclude.isNone then
            .error (.assertionError "Must set either fields or exclude")
          else
            .ok ()

/-- `ModelSerializer.get_fields` is decorated with `check_model_meta`
(line 382): the gate runs first and aborts field generation on failure;
`body` stands for the generation body of lines 383-417. -/
def ModelSerializer.get_fields (meta : Option MetaOpts)
    (body : Except PyError (List (String × Field))) :
    Except PyError (List (String × Field)) :=
  match checkModelMeta meta with
  | .error e => .error e
  | .ok _ => body

/-! ## Construction with `many=True`
(`BaseSerializer.__new__` / `many_init`, lines 39-57) -/

/-- The constructor keyword arguments `__new__` / `many_init` consult. -/
structure CtorKwargs where
  many : Bool := false
  allow_empty : Option Bool := Option.none
  dataArg : Option PyValue := Option.none
  instArg : PyValue := .none
  partialFlag : Bool := false

/-- A declared serializer class, as far as construction dispatch is
concerned: its identity and whether its `Meta` block leaves
`list_serializer_class` at the default (`ListSerializer`).  No serializer
class of this repository overrides it. -/
structure SerializerCls where
  clsId : Nat
  listSerializerClassIsDefault : Bool := true

/-- The object a constructor call produces: an ordinary instance of the
declared class, a `ListSerializer` wrapping a child, or an instance of a
custom `Meta.list_serializer_class`. -/
inductive Constructed where
  | plain (clsId : Nat) (args : CtorKwargs)
  | listWrap (child : Constructed) (allow_empty : Bool) (extra : CtorKwargs)
  | customList (clsId : Nat) (child : Constructed) (allow_empty : Option Bool)
      (extra : CtorKwargs)

/-- `BaseSerializer.many_init` (lines 44-57): pop `allow_empty`, build the
child by a normal constructor call on the same class (its kwargs no
longer contain `many`), then build the configured list serializer class
around it, `allow_empty` defaulting to `True` inside
`ListSerializer.__init__` when the keyword was absent. -/
def manyInit (cls : SerializerCls) (kw : CtorKwargs) : Constructed :=
  let ae := kw.allow_empty
  let kw2 := { kw with allow_empty := Option.none }
  let child := Constructed.plain cls.clsId kw2
  if cls.listSerializerClassIsDefault then
    .listWrap child (ae.getD true) kw2
  else
    .customList cls.clsId child ae kw2

/-- `BaseSerializer.__new__` (lines 39-42): the `many` flag is popped and
tested before anything else runs; a truthy flag redirects the whole
construction to `many_init`, otherwise an ordinary instance of the
requested class is made. -/
def constructSerializer (cls : SerializerCls) (kw : CtorKwargs) : Constructed :=
  if kw.many then
    manyInit cls { kw with many := false }
  else
    .plain cls.clsId kw

end AioSerializers

namespace AioSerializers

/-! ## Claim-level descriptions and concrete objects

The `collect*` functions restate, as direct per-field maps, what the
sequential loop of `Serializer.to_internal_value` is claimed to compute;
the theorems below prove the loop equal to them. -/

/-- Is the outcome a success or the recoverable `ValidationError` (the two
per-field outcomes `Serializer.to_internal_value` absorbs)? -/
def isOkOrValidation : Except PyError PyValue → Bool
  | .ok _ => true
  | .error e => e.isValidation

/-- The validated entries the non-partial loop is claimed to produce:
every writable field whose conversion succeeds, in declaration order. -/
def collectOks (idata : List (String × PyValue)) (fs : List (String × Field)) :
    List (String × PyValue) :=
  fs.filterMap (fun p =>
    match dictIndex idata p.1 with
    | .ok v =>
        match Field.to_internal_value p.2 v with
        | .ok w => some (p.1, w)
        | .error _ => Option.none
    | .error _ => Option.none)

/-- The error entries the non-partial loop is claimed to produce: every
writable field whose conversion raises `ValidationError`, keyed by field
name, in declaration order. -/
def collectErrs (idata : List (String × PyValue)) (fs : List (String × Field)) :
    List (String × PyValue) :=
  fs.filterMap (fun p =>
    match dictIndex idata p.1 with
    | .ok v =>
        match Field.to_internal_value p.2 v with
        | .error (.validation m) => some (p.1, m)
        | _ => Option.none
    | .error _ => Option.none)

/-- The validated entries the partial-mode loop produces: only fields
whose looked-up input value is truthy are processed. -/
def collectOksP (idata : List (String × PyValue)) (fs : List (String × Field)) :
    List (String × PyValue) :=
  fs.filterMap (fun p =>
    if (dictGet idata p.1).truthy then
      match Field.to_internal_value p.2 (dictGet idata p.1) with
      | .ok w => some (p.1, w)
      | .error _ => Option.none
    else Option.none)

/-- The error entries the partial-mode loop produces. -/
def collectErrsP (idata : List (String × PyValue)) (fs : List (String × Field)) :
    List (String × PyValue) :=
  fs.filterMap (fun p =>
    if (dictGet idata p.1).truthy then
      match Field.to_internal_value p.2 (dictGet idata p.1) with
      | .error (.validation m) => some (p.1, m)
      | _ => Option.none
    else Option.none)

/-- How `save` treats the result of a `create` / `update` hook: a null
return is converted into the fatal non-null assertion, anything else is
stored and returned. -/
def hookResult (r : Except PyError PyValue) (s : SerializerObj) (msg : String) :
    Except PyError (PyValue × SerializerObj) :=
  match r with
  | .error e => .error e
  | .ok v =>
      if v.isNone then
        .error (.assertionError msg)
      else
        .ok (v, { s with inst := v })

/-- How the `data` accessor memoizes a computed representation. -/
def cacheResult (s : SerializerObj) (r : Except PyError PyValue) :
    Except PyError (PyValue × SerializerObj) :=
  match r with
  | .error e => .error e
  | .ok d => .ok (d, { s with dataCache := some d })

/-- The exact condition under which `check_model_meta` lets field
generation proceed, written as one predicate over the consulted
configuration. -/
def metaGateOk (meta : Option MetaOpts) : Bool :=
  match meta with
  | Option.none => false
  | some mo =>
      match mo.model with
      | Option.none => false
      | some mdl =>
          !mdl.abstract &&
          !(mo.fields.truthy && !isAllFields mo.fields && !isListOrTuple mo.fields) &&
          !(mo.exclude.truthy && !isListOrTuple mo.exclude) &&
          !(mo.fields.truthy && mo.exclude.truthy) &&
          !(mo.fields.isNone && mo.exclude.isNone)

/-- A two-field template: a writable `title` char field and a writable
`enabled` boolean field. -/
def titleEnabledFields : List (String × Field) :=
  [("title", mkCharField { name := some "title" }),
   ("enabled", mkBooleanField { name := some "enabled" })]

/-- A serializer bound to an input in which both writable fields hold
values of the wrong type. -/
def sBothInvalid : SerializerObj :=
  { fields := titleEnabledFields,
    initial_data := some (.dict [("title", .int 5), ("enabled", .str "x")]) }

/-- A partial serializer whose input contains `enabled` with the falsy
value `False`. -/
def sPartialFalsy : SerializerObj :=
  { fields := titleEnabledFields, partialFlag := true,
    initial_data := some (.dict [("title", .str "x"), ("enabled", .bool false)]) }

/-- The partial serializer of the claim: input holds only `title`. -/
def sPartialTitle : SerializerObj :=
  { fields := titleEnabledFields, partialFlag := true,
    initial_data := some (.dict [("title", .str "x")]) }

/-- A serializer that was never validated. -/
def sUnvalidated : SerializerObj :=
  { fields := titleEnabledFields,
    initial_data := some (.dict [("title", .str "x")]) }

/-- A successfully validated, unbound serializer. -/
def sValidatedOk : SerializerObj :=
  { fields := titleEnabledFields,
    initial_data := some (.dict [("title", .str "x")]),
    validated_data := some [("title", .str "x")] }

/-- A successfully validated serializer bound to an existing instance. -/
def sValidatedBound : SerializerObj :=
  { sValidatedOk with inst := .dict [("id", .int 1)] }

/-- A `create` hook returning a fresh non-null instance. -/
def createHookOk : List (String × PyValue) → Except PyError PyValue :=
  fun vd => .ok (.dict (("id", PyValue.int 7) :: vd))

/-- An `update` hook returning the mutated bound instance. -/
def updateHookOk : PyValue → List (String × PyValue) → Except PyError PyValue :=
  fun _ vd => .ok (.dict (("id", PyValue.int 1) :: vd))

/-- A representation hook that wire-encodes the given source unchanged. -/
def toRepId : PyValue → Except PyError PyValue :=
  fun v => .ok v

/-- A child serializer for the list-serializer claims. -/
def childTitle : SerializerObj :=
  { fields := [("title", mkCharField { name := some "title" })],
    initial_data := some (.dict [("title", .str "x")]) }

/-- A `Meta` configuration setting `fields` to an empty tuple and
`exclude` to a one-element tuple: both attributes are set. -/
def metaEmptyFieldsWithExclude : MetaOpts :=
  { model := some { abstract := false }, fields := .list [],
    exclude := .list [.str "x"] }

/-- A `Meta` configuration setting both options to non-empty tuples. -/
def metaBothNonEmpty : MetaOpts :=
  { model := some { abstract := false }, fields := .list [.str "a"],
    exclude := .list [.str "x"] }

/-- A well-formed `Meta` configuration using the all-fields sentinel. -/
def metaAllFields : MetaOpts :=
  { model := some { abstract := false }, fields := .str "__all__",
    exclude := .none }

end AioSerializers

namespace AioSerializers

/-! ## Theorems -/

/-- The source's `DateField` format string compiles to a bad-directive
error before any input is read. -/
theorem scanFormat_dateFmt_bad :
    scanFormat ("%Y-%m-%D".toList) =
      .error (.valueError "bad directive in format") := rfl

/-- The source's `DateTimeField` format string compiles to a bad-directive
error before any input is read. -/
theorem scanFormat_datetimeFmt_bad :
    scanFormat ("%Y-%m-%DT%H:%M:%S".toList) =
      .error (.valueError "bad directive in format") := rfl

/-- `strptime` with the `DateField` format fails on every input. -/
theorem strptime_dateFmt (s : String) :
    strptime s "%Y-%m-%D" = .error (.valueError "bad directive in format") := by
  unfold strptime
  rw [scanFormat_dateFmt_bad]

/-- `strptime` with the `DateTimeField` format fails on every input. -/
theorem strptime_datetimeFmt (s : String) :
    strptime s "%Y-%m-%DT%H:%M:%S" =
      .error (.valueError "bad directive in format") := by
  unfold strptime
  rw [scanFormat_datetimeFmt_bad]

/-- C8: with the format strings of the source, every input — well-formed
or not — makes `DateField.to_internal_value` and
`DateTimeField.to_internal_value` fail with an error that is NOT the
recoverable `ValidationError` (a `ValueError` from the bad `%D` directive
for string input, a `TypeError` otherwise); in particular the well-formed
date `2020-01-15` fails rather than parse. -/
theorem dateFields_never_validation (o : FieldOpts) (d : PyValue) :
    (∃ e, Field.to_internal_value (mkDateField o) d = .error e ∧
        e.isValidation = false) ∧
    (∃ e, Field.to_internal_value (mkDateTimeField o) d = .error e ∧
        e.isValidation = false) ∧
    Field.to_internal_value (mkDateField {}) (.str "2020-01-15") =
      .error (.valueError "bad directive in format") := by
  refine ⟨?_, ?_, rfl⟩
  · cases d with
    | str s =>
        exact ⟨.valueError "bad directive in format", rfl, rfl⟩
    | none => exact ⟨.typeError "strptime argument 1 must be str", rfl, rfl⟩
    | bool b => exact ⟨.typeError "strptime argument 1 must be str", rfl, rfl⟩
    | int n => exact ⟨.typeError "strptime argument 1 must be str", rfl, rfl⟩
    | list xs => exact ⟨.typeError "strptime argument 1 must be str", rfl, rfl⟩
    | dict es => exact ⟨.typeError "strptime argument 1 must be str", rfl, rfl⟩
    | pydate y m dd => exact ⟨.typeError "strptime argument 1 must be str", rfl, rfl⟩
    | pydatetime y m dd hh mm ss =>
        exact ⟨.typeError "strptime argument 1 must be str", rfl, rfl⟩
  · cases d with
    | str s =>
        exact ⟨.valueError "bad directive in format", rfl, rfl⟩
    | none => exact ⟨.typeError "strptime argument 1 must be str", rfl, rfl⟩
    | bool b => exact ⟨.typeError "strptime argument 1 must be str", rfl, rfl⟩
    | int n => exact ⟨.typeError "strptime argument 1 must be str", rfl, rfl⟩
    | list xs => exact ⟨.typeError "strptime argument 1 must be str", rfl, rfl⟩
    | dict es => exact ⟨.typeError "strptime argument 1 must be str", rfl, rfl⟩
    | pydate y m dd => exact ⟨.typeError "strptime argument 1 must be str", rfl, rfl⟩
    | pydatetime y m dd hh mm ss =>
        exact ⟨.typeError "strptime argument 1 must be str", rfl, rfl⟩

/-- C9 counterexample: a `ListSerializer` constructed with
`allow_empty=False` still accepts the empty input sequence —
`to_internal_value` succeeds with the empty result instead of rejecting
it. -/
theorem allowEmptyFalse_accepts_empty :
    (ListSerializer.init childTitle (some false)).allow_empty = false ∧
    ListSerializer.to_internal_value
        (ListSerializer.init childTitle (some false)) [] = .ok [] :=
  ⟨rfl, rfl⟩

/-- C9 amended: `allow_empty` is stored (default `True` when the keyword
is absent) but `to_internal_value` never consults it: the empty input
sequence validates to the empty result, and the whole conversion result
is independent of the flag. -/
theorem allow_empty_stored_not_enforced (child : SerializerObj)
    (ae : Option Bool) (data : List PyValue) :
    (ListSerializer.init child Option.none).allow_empty = true ∧
    (ListSerializer.init child ae).allow_empty = ae.getD true ∧
    ListSerializer.to_internal_value (ListSerializer.init child ae) [] =
      .ok [] ∧
    ListSerializer.to_internal_value (ListSerializer.init child ae) data =
      ListSerializer.to_internal_value
        (ListSerializer.init child (some true)) data := by
  refine ⟨rfl, rfl, rfl, ?_⟩
  induction data with
  | nil => rfl
  | cons item rest ih =>
      have hc : ∀ ae2 : Option Bool,
          (ListSerializer.init child ae2).child = child := fun _ => rfl
      cases h : Serializer.to_internal_value child item with
      | error e =>
          simp only [ListSerializer.to_internal_value, hc, h]
      | ok p =>
          obtain ⟨vd, errs⟩ := p
          simp only [ListSerializer.to_internal_value, hc, h, ih]

/-- C10: `Serializer.to_internal_value` only checks that its argument is
a mapping; the values it validates come from the bound `initial_data`,
so any two mapping arguments give identical results. -/
theorem to_internal_value_ignores_argument (s : SerializerObj)
    (d1 d2 : PyValue)
    (h1 : isinstance d1 .dict = true) (h2 : isinstance d2 .dict = true) :
    Serializer.to_internal_value s d1 = Serializer.to_internal_value s d2 := by
  simp [Serializer.to_internal_value, h1, h2]

/-- Witness for C10 at concrete inputs. -/
theorem to_internal_value_ignores_argument_witness :
    isinstance (PyValue.dict [("a", .int 1)]) .dict = true ∧
    isinstance (PyValue.dict []) .dict = true ∧
    Serializer.to_internal_value sBothInvalid (.dict [("a", .int 1)]) =
      Serializer.to_internal_value sBothInvalid (.dict []) :=
  ⟨rfl, rfl,
    to_internal_value_ignores_argument sBothInvalid _ _ rfl rfl⟩

/-- C6: when the `many` flag is passed and the class leaves
`Meta.list_serializer_class` at its default (every serializer class of
this repository does), construction is redirected — before any
initialization of the requesting class — to a `ListSerializer` whose
child is a normally-constructed instance of the same class with the
`many` flag removed; without the flag an ordinary instance is built. -/
theorem many_builds_list_serializer (cls : SerializerCls) (kw : CtorKwargs)
    (hdef : cls.listSerializerClassIsDefault = true) :
    (kw.many = true →
      constructSerializer cls kw =
        .listWrap
          (.plain cls.clsId { kw with many := false, allow_empty := Option.none })
          (kw.allow_empty.getD true)
          { kw with many := false, allow_empty := Option.none }) ∧
    (kw.many = false → constructSerializer cls kw = .plain cls.clsId kw) := by
  constructor
  · intro hm
    simp [constructSerializer, manyInit, hm, hdef]
  · intro hm
    simp [constructSerializer, hm]

/-- Witness for C6 at a concrete class and constructor call. -/
theorem many_builds_list_serializer_witness :
    constructSerializer { clsId := 0 } { many := true } =
      .listWrap (.plain 0 { many := false }) true { many := false } ∧
    constructSerializer { clsId := 0 } { many := false } =
      .plain 0 { many := false } :=
  ⟨(many_builds_list_serializer { clsId := 0 } { many := true } rfl).1 rfl,
   (many_builds_list_serializer { clsId := 0 } { many := false } rfl).2 rfl⟩

end AioSerializers

namespace AioSerializers

/-- A truthy looked-up value means indexing succeeds with that value. -/
theorem dictIndex_of_truthy (entries : List (String × PyValue)) (k : String)
    (h : (dictGet entries k).truthy = true) :
    dictIndex entries k = .ok (dictGet entries k) := by
  unfold dictGet dictIndex
  cases hf : entries.find? (fun p => p.1 == k) with
  | none =>
      exfalso
      unfold dictGet at h
      rw [hf] at h
      exact Bool.noConfusion h
  | some p => rfl

/-- The non-partial field loop aggregates rather than short-circuits:
when every writable field is present in the input and its conversion
either succeeds or raises the recoverable `ValidationError`, the loop
completes, collecting every success and every error in declaration
order. -/
theorem runFieldsLoop_aggregates (idata : List (String × PyValue))
    (fs : List (String × Field))
    (h : ∀ p ∈ fs, ∃ v, dictIndex idata p.1 = .ok v ∧
        isOkOrValidation (Field.to_internal_value p.2 v) = true) :
    runFieldsLoop false (some (.dict idata)) fs =
      .ok (collectOks idata fs, collectErrs idata fs) := by
  induction fs with
  | nil => rfl
  | cons p rest ih =>
      obtain ⟨n, f⟩ := p
      obtain ⟨v, hv, hov⟩ := h (n, f) (List.mem_cons_self _ _)
      have ihr := ih (fun q hq => h q (List.mem_cons_of_mem _ hq))
      cases htiv : Field.to_internal_value f v with
      | ok w =>
          simp [runFieldsLoop, collectOks, collectErrs, hv, htiv, ihr]
      | error e =>
          rw [htiv] at hov
          cases e with
          | validation m =>
              simp [runFieldsLoop, collectOks, collectErrs, hv, htiv, ihr]
          | keyError k => exact absurd hov (by simp [isOkOrValidation, PyError.isValidation])
          | attributeError msg => exact absurd hov (by simp [isOkOrValidation, PyError.isValidation])
          | valueError msg => exact absurd hov (by simp [isOkOrValidation, PyError.isValidation])
          | typeError msg => exact absurd hov (by simp [isOkOrValidation, PyError.isValidation])
          | assertionError msg => exact absurd hov (by simp [isOkOrValidation, PyError.isValidation])
          | notImplementedError msg => exact absurd hov (by simp [isOkOrValidation, PyError.isValidation])

/-- An invalid present field contributes its entry to the collected
error mapping. -/
theorem mem_collectErrs (idata : List (String × PyValue))
    (fs : List (String × Field)) (n : String) (f : Field) (v m : PyValue)
    (hmem : (n, f) ∈ fs) (hv : dictIndex idata n = .ok v)
    (htiv : Field.to_internal_value f v = .error (.validation m)) :
    (n, m) ∈ collectErrs idata fs := by
  unfold collectErrs
  rw [List.mem_filterMap]
  exact ⟨(n, f), hmem, by simp [hv, htiv]⟩

/-- C1: bound to an input whose writable fields are all present and two
of them invalid, `is_valid` returns failure recording one error entry
per invalid field, keyed by field name in declaration order; every
writable field is attempted (the result is the full per-field collection,
not a prefix), and each per-field `ValidationError` is recorded as data
while the loop completes normally. -/
theorem errors_aggregated_across_fields
    (s : SerializerObj) (idata : List (String × PyValue))
    (n1 n2 : String) (f1 f2 : Field) (v1 v2 m1 m2 : PyValue)
    (hpart : s.partialFlag = false)
    (hid : s.initial_data = some (.dict idata))
    (hall : ∀ p ∈ writableFields s.fields, ∃ v,
        dictIndex idata p.1 = .ok v ∧
        isOkOrValidation (Field.to_internal_value p.2 v) = true)
    (h1 : (n1, f1) ∈ writableFields s.fields)
    (h2 : (n2, f2) ∈ writableFields s.fields)
    (hv1 : dictIndex idata n1 = .ok v1)
    (hv2 : dictIndex idata n2 = .ok v2)
    (he1 : Field.to_internal_value f1 v1 = .error (.validation m1))
    (he2 : Field.to_internal_value f2 v2 = .error (.validation m2)) :
    Serializer.is_valid s false =
      .ok (false, { s with errors := some (collectErrs idata (writableFields s.fields)) }) ∧
    (n1, m1) ∈ collectErrs idata (writableFields s.fields) ∧
    (n2, m2) ∈ collectErrs idata (writableFields s.fields) ∧
    Serializer.to_internal_value s (.dict idata) =
      .ok (collectOks idata (writableFields s.fields),
           collectErrs idata (writableFields s.fields)) := by
  have hm1 : (n1, m1) ∈ collectErrs idata (writableFields s.fields) :=
    mem_collectErrs idata _ n1 f1 v1 m1 h1 hv1 he1
  have hm2 : (n2, m2) ∈ collectErrs idata (writableFields s.fields) :=
    mem_collectErrs idata _ n2 f2 v2 m2 h2 hv2 he2
  have hloop := runFieldsLoop_aggregates idata (writableFields s.fields) hall
  have htiv : Serializer.to_internal_value s (.dict idata) =
      .ok (collectOks idata (writableFields s.fields),
           collectErrs idata (writableFields s.fields)) := by
    unfold Serializer.to_internal_value
    rw [hpart, hid]
    simpa [isinstance] using hloop
  have hempty : (collectErrs idata (writableFields s.fields)).isEmpty = false := by
    cases hE : collectErrs idata (writableFields s.fields) with
    | nil => rw [hE] at hm1; cases hm1
    | cons a t => rfl
  refine ⟨?_, hm1, hm2, htiv⟩
  simp [Serializer.is_valid, hid, htiv, hempty, SerializerObj.errorsTruthy]

/-- The partial-mode field loop skips exactly the fields whose looked-up
input value is falsy and processes the rest. -/
theorem runFieldsLoop_partial (idata : List (String × PyValue))
    (fs : List (String × Field))
    (h : ∀ p ∈ fs, (dictGet idata p.1).truthy = true →
        isOkOrValidation
          (Field.to_internal_value p.2 (dictGet idata p.1)) = true) :
    runFieldsLoop true (some (.dict idata)) fs =
      .ok (collectOksP idata fs, collectErrsP idata fs) := by
  induction fs with
  | nil => rfl
  | cons p rest ih =>
      obtain ⟨n, f⟩ := p
      have ihr := ih (fun q hq hqt => h q (List.mem_cons_of_mem _ hq) hqt)
      by_cases ht : (dictGet idata n).truthy = true
      · have hidx := dictIndex_of_truthy idata n ht
        have hov := h (n, f) (List.mem_cons_self _ _) ht
        cases htiv : Field.to_internal_value f (dictGet idata n) with
        | ok w =>
            simp [runFieldsLoop, collectOksP, collectErrsP, ht, hidx, htiv, ihr]
        | error e =>
            rw [htiv] at hov
            cases e with
            | validation m =>
                simp [runFieldsLoop, collectOksP, collectErrsP, ht, hidx, htiv, ihr]
            | keyError k => exact absurd hov (by simp [isOkOrValidation, PyError.isValidation])
            | attributeError msg => exact absurd hov (by simp [isOkOrValidation, PyError.isValidation])
            | valueError msg => exact absurd hov (by simp [isOkOrValidation, PyError.isValidation])
            | typeError msg => exact absurd hov (by simp [isOkOrValidation, PyError.isValidation])
            | assertionError msg => exact absurd hov (by simp [isOkOrValidation, PyError.isValidation])
            | notImplementedError msg => exact absurd hov (by simp [isOkOrValidation, PyError.isValidation])
      · have ht' : (dictGet idata n).truthy = false := by
          cases hb : (dictGet idata n).truthy with
          | false => rfl
          | true => exact absurd hb ht
        simp [runFieldsLoop, collectOksP, collectErrsP, ht', ihr]

/-- C3 counterexample: in partial mode a writable field that IS present
in the input but with a falsy value (`enabled: False`) is skipped — it is
neither validated nor converted, although it is individually valid — so
`validated_data` omits it, contradicting the claim that a present field
is always validated and converted (skipping is claimed to happen only
when absent). -/
theorem partial_present_falsy_skipped :
    dictGet [("title", PyValue.str "x"), ("enabled", .bool false)]
        "enabled" = .bool false ∧
    Field.to_internal_value (mkBooleanField { name := some "enabled" })
        (.bool false) = .ok (.bool false) ∧
    Serializer.is_valid sPartialFalsy false =
      .ok (true, { sPartialFalsy with validated_data := some [("title", .str "x")] }) :=
  ⟨rfl, rfl, rfl⟩

/-- C3 amended: in partial mode a writable field is skipped exactly when
its looked-up input value is falsy (absent, or present with a falsy value
such as `False`, `0` or the empty string); the processed fields are
validated and converted, and with a loose input of only truthy present
fields `is_valid` succeeds with exactly those fields in
`validated_data` — in particular input holding only `title` against the
`{title, enabled}` template yields `validated_data` of just `title`. -/
theorem partial_skips_falsy_only
    (s : SerializerObj) (idata : List (String × PyValue))
    (hpart : s.partialFlag = true)
    (hid : s.initial_data = some (.dict idata))
    (hproc : ∀ p ∈ writableFields s.fields,
        (dictGet idata p.1).truthy = true →
        isOkOrValidation
          (Field.to_internal_value p.2 (dictGet idata p.1)) = true) :
    Serializer.to_internal_value s (.dict idata) =
      .ok (collectOksP idata (writableFields s.fields),
           collectErrsP idata (writableFields s.fields)) ∧
    (s.errors = Option.none →
      collectErrsP idata (writableFields s.fields) = [] →
      Serializer.is_valid s false =
        .ok (true, { s with validated_data := some (collectOksP idata (writableFields s.fields)) })) := by
  have hloop := runFieldsLoop_partial idata (writableFields s.fields) hproc
  have htiv : Serializer.to_internal_value s (.dict idata) =
      .ok (collectOksP idata (writableFields s.fields),
           collectErrsP idata (writableFields s.fields)) := by
    unfold Serializer.to_internal_value
    rw [hpart, hid]
    simpa [isinstance] using hloop
  refine ⟨htiv, ?_⟩
  intro herr hnoerr
  simp [Serializer.is_valid, hid, htiv, hnoerr, SerializerObj.errorsTruthy,
    herr]

/-- Witness for C1 at the concrete two-field template with two invalid
values. -/
theorem errors_aggregated_across_fields_witness :
    Serializer.is_valid sBothInvalid false =
      .ok (false, { sBothInvalid with errors := some [("title", .str "Must be a declared type"), ("enabled", .str "Must be a declared type")] }) ∧
    ("title", PyValue.str "Must be a declared type") ∈
      collectErrs [("title", PyValue.int 5), ("enabled", PyValue.str "x")]
        (writableFields sBothInvalid.fields) ∧
    ("enabled", PyValue.str "Must be a declared type") ∈
      collectErrs [("title", PyValue.int 5), ("enabled", PyValue.str "x")]
        (writableFields sBothInvalid.fields) := by
  have h := errors_aggregated_across_fields sBothInvalid
    [("title", PyValue.int 5), ("enabled", PyValue.str "x")]
    "title" "enabled"
    (mkCharField { name := some "title" })
    (mkBooleanField { name := some "enabled" })
    (.int 5) (.str "x")
    (.str "Must be a declared type") (.str "Must be a declared type")
    rfl rfl
    (by
      intro p hp
      have hp2 : p ∈ [("title", mkCharField { name := some "title" }),
          ("enabled", mkBooleanField { name := some "enabled" })] := hp
      rcases List.mem_cons.mp hp2 with rfl | h3
      · exact ⟨.int 5, rfl, rfl⟩
      rcases List.mem_cons.mp h3 with rfl | h4
      · exact ⟨.str "x", rfl, rfl⟩
      exact absurd h4 (List.not_mem_nil _))
    (List.mem_cons_self _ _)
    (List.mem_cons_of_mem _ (List.mem_cons_self _ _))
    rfl rfl rfl rfl
  exact ⟨h.1, h.2.1, h.2.2.1⟩

/-- Witness for C3 (amended) at the claim's own example: partial input
holding only `title`. -/
theorem partial_skips_falsy_only_witness :
    Serializer.is_valid sPartialTitle false =
      .ok (true, { sPartialTitle with validated_data := some [("title", PyValue.str "x")] }) := by
  have h := partial_skips_falsy_only sPartialTitle
    [("title", PyValue.str "x")] rfl rfl
    (by
      intro p hp ht
      have hp2 : p ∈ [("title", mkCharField { name := some "title" }),
          ("enabled", mkBooleanField { name := some "enabled" })] := hp
      rcases List.mem_cons.mp hp2 with rfl | h3
      · rfl
      rcases List.mem_cons.mp h3 with rfl | h4
      · exact absurd ht (by decide)
      exact absurd h4 (List.not_mem_nil _))
  exact h.2 rfl rfl

end AioSerializers

namespace AioSerializers

/-- Reading below the old length is unaffected by appending to a heap. -/
theorem getD_append_lt (h ext : List Field) (i : Nat) (d : Field)
    (hi : i < h.length) :
    (h ++ ext).getD i d = h.getD i d := by
  simp [List.getD_eq_getElem?_getD, List.getElem?_append, hi]

/-- Reading an address other than the mutated one is unaffected. -/
theorem getD_set_ne (h : List Field) (a i : Nat) (f' d : Field)
    (hne : a ≠ i) :
    (h.set a f').getD i d = h.getD i d := by
  simp [List.getD_eq_getElem?_getD, List.getElem?_set_ne hne]

/-- Allocation extends the heap with exactly the copied field values. -/
theorem allocFields_fst (heap : List Field) (vals : List (String × Field)) :
    (allocFields heap vals).1 = heap ++ vals.map Prod.snd := by
  induction vals generalizing heap with
  | nil => simp [allocFields]
  | cons q rest ih =>
      obtain ⟨n, f⟩ := q
      simp [allocFields, ih, List.append_assoc]

/-- Every allocated address lies in the freshly appended region. -/
theorem allocFields_addr_range (heap : List Field)
    (vals : List (String × Field)) :
    ∀ p ∈ (allocFields heap vals).2,
      heap.length ≤ p.2 ∧ p.2 < heap.length + vals.length := by
  induction vals generalizing heap with
  | nil => intro p hp; exact absurd hp (List.not_mem_nil _)
  | cons q rest ih =>
      obtain ⟨n, f⟩ := q
      intro p hp
      rcases List.mem_cons.mp hp with rfl | hp2
      · refine ⟨Nat.le_refl _, ?_⟩
        show heap.length < heap.length + (rest.length + 1)
        omega
      · have hr := ih (heap ++ [f]) p hp2
        rw [List.length_append, List.length_singleton] at hr
        rw [List.length_cons]
        omega

/-- Reading a registry whose addresses lie in the old heap is unaffected
by an extension. -/
theorem readFields_append (heap ext : List Field)
    (reg : List (String × Nat)) (h : ∀ p ∈ reg, p.2 < heap.length) :
    readFields (heap ++ ext) reg = readFields heap reg := by
  induction reg with
  | nil => rfl
  | cons p rest ih =>
      have hh := h p (List.mem_cons_self _ _)
      have ihh := ih (fun q hq => h q (List.mem_cons_of_mem _ hq))
      simp only [readFields, List.map_cons] at ihh ⊢
      rw [getD_append_lt _ _ _ _ hh, ihh]

/-- Reading a registry that does not reference the mutated address is
unaffected by the mutation. -/
theorem readFields_set_ne (heap : List Field) (a : Nat) (f' : Field)
    (reg : List (String × Nat)) (h : ∀ p ∈ reg, p.2 ≠ a) :
    readFields (heap.set a f') reg = readFields heap reg := by
  induction reg with
  | nil => rfl
  | cons p rest ih =>
      have hh := h p (List.mem_cons_self _ _)
      have ihh := ih (fun q hq => h q (List.mem_cons_of_mem _ hq))
      simp only [readFields, List.map_cons] at ihh ⊢
      rw [getD_set_ne _ _ _ _ _ (Ne.symm hh), ihh]

/-- The freshly allocated registry reads back exactly the copied
values: the copy is faithful. -/
theorem readFields_allocFields (heap : List Field)
    (vals : List (String × Field)) :
    readFields (allocFields heap vals).1 (allocFields heap vals).2 = vals := by
  induction vals generalizing heap with
  | nil => rfl
  | cons q rest ih =>
      obtain ⟨n, f⟩ := q
      have hget : ((allocFields (heap ++ [f]) rest).1).getD heap.length
          (mkBaseField {}) = f := by
        rw [allocFields_fst (heap ++ [f]) rest]
        rw [getD_append_lt _ _ _ _ (by simp)]
        simp [List.getD_eq_getElem?_getD, List.getElem?_concat_length]
      calc readFields (allocFields heap ((n, f) :: rest)).1
              (allocFields heap ((n, f) :: rest)).2
          = (n, ((allocFields (heap ++ [f]) rest).1).getD heap.length
                (mkBaseField {})) ::
              readFields (allocFields (heap ++ [f]) rest).1
                (allocFields (heap ++ [f]) rest).2 := rfl
        _ = (n, f) :: rest := by rw [hget, ih (heap ++ [f])]

/-- C2: `get_fields` deep-copies the declared template: two instance
registries built from the same template share no field object with each
other or with the template, each reads back exactly the template values,
and mutating a field object of one instance changes neither the other
instance's registry (hence none of its validation outcomes) nor the
template. -/
theorem get_fields_deep_copy_independence
    (h0 : List Field) (tmpl : List (String × Nat))
    (htmpl : ∀ p ∈ tmpl, p.2 < h0.length)
    (h1 : List Field) (regA : List (String × Nat))
    (hA : Serializer.get_fields h0 tmpl = (h1, regA))
    (h2 : List Field) (regB : List (String × Nat))
    (hB : Serializer.get_fields h1 tmpl = (h2, regB))
    (a : Nat) (ha : a ∈ regA.map Prod.snd) (f' : Field) :
    (∀ b ∈ regB.map Prod.snd, b ≠ a) ∧
    readFields h1 regA = readFields h0 tmpl ∧
    readFields h2 regB = readFields h0 tmpl ∧
    readFields (h2.set a f') regB = readFields h2 regB ∧
    readFields (h2.set a f') tmpl = readFields h0 tmpl ∧
    (∀ (sObj : SerializerObj) (d : PyValue),
      Serializer.to_internal_value
          { sObj with fields := readFields (h2.set a f') regB } d =
        Serializer.to_internal_value
          { sObj with fields := readFields h2 regB } d) := by
  have e1 : (allocFields h0 (readFields h0 tmpl)).1 = h1 :=
    congrArg Prod.fst hA
  have e2 : (allocFields h0 (readFields h0 tmpl)).2 = regA :=
    congrArg Prod.snd hA
  have e3 : (allocFields h1 (readFields h1 tmpl)).1 = h2 :=
    congrArg Prod.fst hB
  have e4 : (allocFields h1 (readFields h1 tmpl)).2 = regB :=
    congrArg Prod.snd hB
  have hlen0 : (readFields h0 tmpl).length = tmpl.length := by
    simp [readFields]
  have h1len : h1.length = h0.length + tmpl.length := by
    rw [← e1, allocFields_fst, List.length_append, List.length_map, hlen0]
  have h1ext : ∃ ext, h1 = h0 ++ ext := by
    exact ⟨(readFields h0 tmpl).map Prod.snd, by rw [← e1, allocFields_fst]⟩
  have h2ext : ∃ ext, h2 = h1 ++ ext := by
    exact ⟨(readFields h1 tmpl).map Prod.snd, by rw [← e3, allocFields_fst]⟩
  have haRange : h0.length ≤ a ∧ a < h1.length := by
    obtain ⟨p, hp, hpa⟩ := List.mem_map.mp ha
    rw [← e2] at hp
    have := allocFields_addr_range h0 (readFields h0 tmpl) p hp
    rw [hlen0] at this
    omega
  have hBlow : ∀ p ∈ regB, h1.length ≤ p.2 := by
    intro p hp
    rw [← e4] at hp
    exact (allocFields_addr_range h1 (readFields h1 tmpl) p hp).1
  have htmpl1 : ∀ p ∈ tmpl, p.2 < h1.length := by
    intro p hp
    have := htmpl p hp
    omega
  have hr1tmpl : readFields h1 tmpl = readFields h0 tmpl := by
    obtain ⟨ext, hext⟩ := h1ext
    rw [hext]
    exact readFields_append h0 ext tmpl htmpl
  have conj1 : ∀ b ∈ regB.map Prod.snd, b ≠ a := by
    intro b hb
    obtain ⟨p, hp, hpb⟩ := List.mem_map.mp hb
    have := hBlow p hp
    omega
  have conj2 : readFields h1 regA = readFields h0 tmpl := by
    rw [← e1, ← e2]
    exact readFields_allocFields h0 (readFields h0 tmpl)
  have conj3 : readFields h2 regB = readFields h0 tmpl := by
    rw [← e3, ← e4, readFields_allocFields h1 (readFields h1 tmpl), hr1tmpl]
  have conj4 : readFields (h2.set a f') regB = readFields h2 regB := by
    apply readFields_set_ne
    intro p hp
    have := hBlow p hp
    omega
  have conj5 : readFields (h2.set a f') tmpl = readFields h0 tmpl := by
    have hstep : readFields (h2.set a f') tmpl = readFields h2 tmpl := by
      apply readFields_set_ne
      intro p hp
      have := htmpl p hp
      omega
    have hr2tmpl : readFields h2 tmpl = readFields h1 tmpl := by
      obtain ⟨ext, hext⟩ := h2ext
      rw [hext]
      exact readFields_append h1 ext tmpl htmpl1
    rw [hstep, hr2tmpl, hr1tmpl]
  exact ⟨conj1, conj2, conj3, conj4, conj5, fun sObj d => by rw [conj4]⟩

/-- Witness for C2 at a concrete one-field template and two allocated
instance registries. -/
theorem get_fields_deep_copy_independence_witness :
    readFields
        ([mkCharField {}, mkCharField {}, mkCharField {}].set 1
          (mkBooleanField {})) [("title", 2)] =
      readFields [mkCharField {}, mkCharField {}, mkCharField {}]
        [("title", 2)] ∧
    readFields
        ([mkCharField {}, mkCharField {}, mkCharField {}].set 1
          (mkBooleanField {})) [("title", 0)] =
      readFields [mkCharField {}] [("title", 0)] := by
  have h := get_fields_deep_copy_independence [mkCharField {}] [("title", 0)]
    (by
      intro p hp
      rcases List.mem_cons.mp hp with rfl | h2
      · exact Nat.zero_lt_one
      · exact absurd h2 (List.not_mem_nil _))
    [mkCharField {}, mkCharField {}] [("title", 1)] rfl
    [mkCharField {}, mkCharField {}, mkCharField {}] [("title", 2)] rfl
    1 (List.mem_cons_self _ _) (mkBooleanField {})
  exact ⟨h.2.2.2.1, h.2.2.2.2.1⟩

end AioSerializers

namespace AioSerializers

/-- A successful `save` delegation never carries a null instance: the
null case was turned into the fatal assertion. -/
theorem hookResult_ok_not_none (r : Except PyError PyValue)
    (s : SerializerObj) (msg : String) (v : PyValue) (s2 : SerializerObj)
    (h : hookResult r s msg = .ok (v, s2)) : v.isNone = false := by
  cases r with
  | error e => simp [hookResult] at h
  | ok nv =>
      by_cases hnv : nv.isNone = true
      · simp [hookResult, hnv] at h
      · have hnv' : nv.isNone = false := by
          cases hb : nv.isNone
          · rfl
          · exact absurd hb hnv
        simp [hookResult, hnv'] at h
        obtain ⟨h1, -⟩ := h
        rw [← h1]
        exact hnv'

/-- With the precondition satisfied, `save` is exactly the delegation to
the matching hook followed by the non-null assertion. -/
theorem save_delegates (s : SerializerObj)
    (ch : List (String × PyValue) → Except PyError PyValue)
    (uh : PyValue → List (String × PyValue) → Except PyError PyValue)
    (vd : List (String × PyValue)) (hvd : s.validated_data = some vd)
    (herr : s.errors = Option.none) :
    (s.inst.isNone = false →
      Serializer.save s ch uh =
        hookResult (uh s.inst vd) s
          "update did not return an object instance") ∧
    (s.inst.isNone = true →
      Serializer.save s ch uh =
        hookResult (ch vd) s
          "create did not return an object instance") := by
  have h1 : s.validated_data.isNone = false := by rw [hvd]; rfl
  have h2 : s.errors.isSome = false := by rw [herr]; rfl
  have h3 : s.errorsTruthy = false := by
    simp [SerializerObj.errorsTruthy, herr]
  constructor
  · intro hinst
    simp [Serializer.save, h1, h2, h3, hinst, hookResult, hvd]
  · intro hinst
    simp [Serializer.save, h1, h2, h3, hinst, hookResult, hvd]

/-- C4: `save` raises the fatal precondition assertion when no validated
data is stored (no successful `is_valid`) or when errors are recorded;
with the precondition satisfied it delegates to the `update` hook when an
instance is bound and to the `create` hook otherwise, turning a null hook
return into a fatal assertion, so a successful `save` never returns
null. -/
theorem save_contract (s : SerializerObj)
    (ch : List (String × PyValue) → Except PyError PyValue)
    (uh : PyValue → List (String × PyValue) → Except PyError PyValue) :
    (s.validated_data = Option.none →
      Serializer.save s ch uh =
        .error (.assertionError "You must call is_valid before calling save")) ∧
    (∀ es, s.errors = some es →
      Serializer.save s ch uh =
        .error (.assertionError "You must call is_valid before calling save")) ∧
    (∀ vd, s.validated_data = some vd → s.errors = Option.none →
      (s.inst.isNone = false →
        Serializer.save s ch uh =
          hookResult (uh s.inst vd) s
            "update did not return an object instance") ∧
      (s.inst.isNone = true →
        Serializer.save s ch uh =
          hookResult (ch vd) s
            "create did not return an object instance")) ∧
    (∀ v s2, Serializer.save s ch uh = .ok (v, s2) → v.isNone = false) := by
  refine ⟨?_, ?_, ?_, ?_⟩
  · intro hvd
    simp [Serializer.save, hvd]
  · intro es hes
    by_cases hvd : s.validated_data.isNone = true
    · simp [Serializer.save, hvd]
    · simp [Serializer.save, hvd, hes]
  · intro vd hvd herr
    exact save_delegates s ch uh vd hvd herr
  · intro v s2 hok
    by_cases hvd : s.validated_data.isNone = true
    · simp [Serializer.save, hvd] at hok
    have hvd' : s.validated_data.isNone = false := by
      cases hb : s.validated_data.isNone
      · rfl
      · exact absurd hb hvd
    by_cases hes : s.errors.isSome = true
    · simp [Serializer.save, hvd', hes] at hok
    have hes' : s.errors.isSome = false := by
      cases hb : s.errors.isSome
      · rfl
      · exact absurd hb hes
    have herr : s.errors = Option.none := by
      cases hb : s.errors
      · rfl
      · rw [hb] at hes'; cases hes'
    have h3 : s.errorsTruthy = false := by
      simp [SerializerObj.errorsTruthy, herr]
    obtain ⟨vd, hvdsome⟩ : ∃ vd, s.validated_data = some vd := by
      cases hb : s.validated_data
      · rw [hb] at hvd'; cases hvd'
      · exact ⟨_, rfl⟩
    by_cases hinst : s.inst.isNone = true
    · have hdeleg := (save_delegates s ch uh vd hvdsome herr).2 hinst
      rw [hdeleg] at hok
      exact hookResult_ok_not_none _ _ _ _ _ hok
    · have hinst2 : s.inst.isNone = false := by
        cases hb : s.inst.isNone
        · rfl
        · exact absurd hb hinst
      have hdeleg := (save_delegates s ch uh vd hvdsome herr).1 hinst2
      rw [hdeleg] at hok
      exact hookResult_ok_not_none _ _ _ _ _ hok

end AioSerializers

namespace AioSerializers

/-- Witness for C4: the three gates and both delegations at concrete
serializers and hooks, plus the non-null result. -/
theorem save_contract_witness :
    Serializer.save sUnvalidated createHookOk updateHookOk =
      .error (.assertionError "You must call is_valid before calling save") ∧
    Serializer.save sValidatedOk createHookOk updateHookOk =
      hookResult (createHookOk [("title", .str "x")]) sValidatedOk
        "create did not return an object instance" ∧
    Serializer.save sValidatedBound createHookOk updateHookOk =
      hookResult (updateHookOk sValidatedBound.inst [("title", .str "x")])
        sValidatedBound "update did not return an object instance" ∧
    (PyValue.dict [("id", PyValue.int 7), ("title", PyValue.str "x")]).isNone
      = false := by
  refine ⟨?_, ?_, ?_, ?_⟩
  · exact (save_contract sUnvalidated createHookOk updateHookOk).1 rfl
  · exact ((save_contract sValidatedOk createHookOk updateHookOk).2.2.1
      [("title", .str "x")] rfl rfl).2 rfl
  · exact ((save_contract sValidatedBound createHookOk updateHookOk).2.2.1
      [("title", .str "x")] rfl rfl).1 rfl
  · exact (save_contract sValidatedOk createHookOk updateHookOk).2.2.2
      (.dict [("id", PyValue.int 7), ("title", PyValue.str "x")])
      { sValidatedOk with
        inst := .dict [("id", PyValue.int 7), ("title", PyValue.str "x")] }
      rfl

/-- C5: accessing the representation of a serializer that was given raw
input but never validated is the fatal ordering assertion; otherwise,
on a cache miss the representation is computed from the bound instance
when one exists and no errors are recorded, else from the validated data
when present and error-free, else from the initial skeleton — and a
computed result is memoized: a second access returns the cached value
without consulting any representation hook. -/
theorem data_accessor_contract (s : SerializerObj)
    (toRep : PyValue → Except PyError PyValue) :
    (s.initial_data.isSome = true → s.validated_data = Option.none →
      Serializer.dataProp s toRep =
        .error (.assertionError
          "You must call is_valid before accessing data")) ∧
    (s.dataCache = Option.none →
      (s.initial_data.isSome = false ∨ s.validated_data ≠ Option.none) →
      ((s.inst.isNone = false → s.errorsTruthy = false →
          Serializer.dataProp s toRep = cacheResult s (toRep s.inst)) ∧
       (s.inst.isNone = true → s.validated_data.isSome = true →
          s.errorsTruthy = false →
          Serializer.dataProp s toRep =
            cacheResult s (toRep (.dict (s.validated_data.getD [])))) ∧
       ((s.errorsTruthy = true ∨
           (s.inst.isNone = true ∧ s.validated_data.isSome = false)) →
          Serializer.dataProp s toRep =
            cacheResult s (.ok (Serializer.get_initial s))))) ∧
    (∀ d s2, Serializer.dataProp s toRep = .ok (d, s2) →
      ∀ toRep2, Serializer.dataProp s2 toRep2 = .ok (d, s2)) := by
  refine ⟨?_, ?_, ?_⟩
  · intro hin hvd
    have hvd2 : s.validated_data.isNone = true := by rw [hvd]; rfl
    simp [Serializer.dataProp, hin, hvd2]
  · intro hcache hpre
    have hc : ¬ (s.initial_data.isSome = true ∧
        s.validated_data.isNone = true) := by
      rcases hpre with hp | hp
      · intro hand
        rw [hp] at hand
        exact Bool.noConfusion hand.1
      · intro hand
        apply hp
        cases hb : s.validated_data
        · rfl
        · rw [hb] at hand
          simpa using hand.2
    refine ⟨?_, ?_, ?_⟩
    · intro hinst herrt
      unfold Serializer.dataProp
      rw [if_neg hc, hcache,
        if_pos (⟨by simp [hinst], by simp [herrt]⟩ :
          ¬ s.inst.isNone = true ∧ ¬ s.errorsTruthy = true)]
      cases hr : toRep s.inst with
      | error e => rfl
      | ok d1 => rfl
    · intro hinst hvd herrt
      unfold Serializer.dataProp
      rw [if_neg hc, hcache, if_neg (by simp [hinst]),
        if_pos (⟨hvd, by simp [herrt]⟩ :
          s.validated_data.isSome = true ∧ ¬ s.errorsTruthy = true)]
      cases hr : toRep (.dict (s.validated_data.getD [])) with
      | error e => rfl
      | ok d1 => rfl
    · intro hsel
      rcases hsel with herrt | ⟨hinst, hvd⟩
      · unfold Serializer.dataProp
        rw [if_neg hc, hcache, if_neg (by simp [herrt]),
          if_neg (by simp [herrt])]
        rfl
      · unfold Serializer.dataProp
        rw [if_neg hc, hcache, if_neg (by simp [hinst]),
          if_neg (by simp [hvd])]
        rfl
  · intro d s2 hok toRep2
    by_cases hc : s.initial_data.isSome = true ∧ s.validated_data.isNone = true
    · unfold Serializer.dataProp at hok
      rw [if_pos hc] at hok
      exact Except.noConfusion hok
    · unfold Serializer.dataProp at hok
      rw [if_neg hc] at hok
      cases hcache : s.dataCache with
      | some d0 =>
          rw [hcache] at hok
          simp only [Except.ok.injEq, Prod.mk.injEq] at hok
          obtain ⟨h1, h2⟩ := hok
          subst h1
          subst h2
          unfold Serializer.dataProp
          rw [if_neg hc, hcache]
      | none =>
          rw [hcache] at hok
          cases hr : (if ¬ s.inst.isNone ∧ ¬ s.errorsTruthy then
                toRep s.inst
              else if s.validated_data.isSome ∧ ¬ s.errorsTruthy then
                toRep (.dict (s.validated_data.getD []))
              else
                .ok (Serializer.get_initial s)) with
          | error e =>
              rw [hr] at hok
              exact Except.noConfusion hok
          | ok d1 =>
              rw [hr] at hok
              simp only [Except.ok.injEq, Prod.mk.injEq] at hok
              obtain ⟨h1, h2⟩ := hok
              subst h1
              subst h2
              have hc2 : ¬ (({ s with dataCache := some d1 }).initial_data.isSome = true ∧
                  ({ s with dataCache := some d1 }).validated_data.isNone = true) := hc
              unfold Serializer.dataProp
              rw [if_neg hc2]

end AioSerializers

namespace AioSerializers

/-- Witness for C5: the fatal pre-validation access, all three
representation sources, and memoized re-access under a different hook,
at concrete serializers. -/
theorem data_accessor_contract_witness :
    Serializer.dataProp sUnvalidated toRepId =
      .error (.assertionError
        "You must call is_valid before accessing data") ∧
    Serializer.dataProp sValidatedBound toRepId =
      cacheResult sValidatedBound (toRepId sValidatedBound.inst) ∧
    Serializer.dataProp sValidatedOk toRepId =
      cacheResult sValidatedOk
        (toRepId (.dict (sValidatedOk.validated_data.getD []))) ∧
    Serializer.dataProp ({} : SerializerObj) toRepId =
      cacheResult ({} : SerializerObj)
        (.ok (Serializer.get_initial ({} : SerializerObj))) ∧
    Serializer.dataProp
        { sValidatedBound with dataCache := some (.dict [("id", .int 1)]) }
        (fun _ => .error (.typeError "no hook")) =
      .ok (.dict [("id", .int 1)],
        { sValidatedBound with dataCache := some (.dict [("id", .int 1)]) }) := by
  refine ⟨?_, ?_, ?_, ?_, ?_⟩
  · exact (data_accessor_contract sUnvalidated toRepId).1 rfl rfl
  · exact ((data_accessor_contract sValidatedBound toRepId).2.1 rfl
      (Or.inr (by simp [sValidatedBound, sValidatedOk]))).1 rfl rfl
  · exact ((data_accessor_contract sValidatedOk toRepId).2.1 rfl
      (Or.inr (by simp [sValidatedOk]))).2.1 rfl rfl rfl
  · exact ((data_accessor_contract ({} : SerializerObj) toRepId).2.1 rfl
      (Or.inl rfl)).2.2 (Or.inr ⟨rfl, rfl⟩)
  · exact (data_accessor_contract sValidatedBound toRepId).2.2
      (.dict [("id", .int 1)])
      { sValidatedBound with dataCache := some (.dict [("id", .int 1)]) }
      rfl (fun _ => .error (.typeError "no hook"))

/-- C7 counterexample: a configuration that sets BOTH options — `fields`
to an empty tuple and `exclude` to a non-empty one — passes the gate and
field generation proceeds, because the both-set assertion tests Python
truthiness, under which the empty `fields` value is falsy. -/
theorem both_options_set_gate_passes :
    metaEmptyFieldsWithExclude.fields.isNone = false ∧
    metaEmptyFieldsWithExclude.exclude.isNone = false ∧
    checkModelMeta (some metaEmptyFieldsWithExclude) = .ok () ∧
    ModelSerializer.get_fields (some metaEmptyFieldsWithExclude) (.ok []) =
      .ok [] :=
  ⟨rfl, rfl, rfl, rfl⟩

/-- A `None` value is falsy. -/
theorem truthy_false_of_isNone (v : PyValue) (h : v.isNone = true) :
    v.truthy = false := by
  cases v <;> simp [PyValue.isNone, PyValue.truthy] at h ⊢

/-- C7 amended: the gate passes exactly when the configuration block and
the model reference exist, the model is not abstract, the options are
well-typed, NOT both options are truthy (an empty, falsy option counts
as unset here), and NOT both options are absent/None; field generation
runs exactly when the gate passes and is aborted by the gate's error
otherwise; the named fatal cases (missing block or model, abstract
model, both options truthy, both options None) each raise the
corresponding fatal error. -/
theorem model_meta_gate_characterization (meta : Option MetaOpts)
    (body : Except PyError (List (String × Field))) :
    ((checkModelMeta meta = .ok ()) ↔ metaGateOk meta = true) ∧
    (checkModelMeta meta = .ok () →
      ModelSerializer.get_fields meta body = body) ∧
    (∀ e, checkModelMeta meta = .error e →
      ModelSerializer.get_fields meta body = .error e) ∧
    (meta = Option.none →
      checkModelMeta meta =
        .error (.assertionError "missing Meta attribute")) ∧
    (∀ mo, meta = some mo → mo.model = Option.none →
      checkModelMeta meta =
        .error (.assertionError "missing Meta.model attribute")) ∧
    (∀ mo mdl, meta = some mo → mo.model = some mdl → mdl.abstract = true →
      checkModelMeta meta =
        .error (.valueError "Cannot use ModelSerializer with Abstract Models")) ∧
    (∀ mo mdl, meta = some mo → mo.model = some mdl → mdl.abstract = false →
      mo.fields.truthy = true → isListOrTuple mo.fields = true →
      mo.exclude.truthy = true → isListOrTuple mo.exclude = true →
      checkModelMeta meta =
        .error (.assertionError "Cannot set both fields and exclude options")) ∧
    (∀ mo mdl, meta = some mo → mo.model = some mdl → mdl.abstract = false →
      mo.fields.isNone = true → mo.exclude.isNone = true →
      checkModelMeta meta =
        .error (.assertionError "Must set either fields or exclude")) := by
  refine ⟨?_, ?_, ?_, ?_, ?_, ?_, ?_, ?_⟩
  · cases meta with
    | none => simp [checkModelMeta, metaGateOk]
    | some mo =>
        cases hm : mo.model with
        | none => simp [checkModelMeta, metaGateOk, hm]
        | some mdl =>
            cases habs : mdl.abstract <;>
              cases hft : mo.fields.truthy <;>
              cases hfa : isAllFields mo.fields <;>
              cases hfl : isListOrTuple mo.fields <;>
              cases het : mo.exclude.truthy <;>
              cases hel : isListOrTuple mo.exclude <;>
              cases hfn : mo.fields.isNone <;>
              cases hen : mo.exclude.isNone <;>
              simp [checkModelMeta, metaGateOk, hm, habs, hft, hfa, hfl,
                het, hel, hfn, hen]
  · intro hok
    unfold ModelSerializer.get_fields
    rw [hok]
  · intro e he
    unfold ModelSerializer.get_fields
    rw [he]
  · intro h
    subst h
    rfl
  · intro mo hmeq hm
    subst hmeq
    simp [checkModelMeta, hm]
  · intro mo mdl hmeq hm habs
    subst hmeq
    simp [checkModelMeta, hm, habs]
  · intro mo mdl hmeq hm habs hft hfl het hel
    subst hmeq
    simp only [checkModelMeta, hm]
    rw [if_neg (by simp [habs]), if_neg (by simp [hfl]),
      if_neg (by simp [hel]), if_pos ⟨hft, het⟩]
  · intro mo mdl hmeq hm habs hfn hen
    subst hmeq
    have hft : mo.fields.truthy = false := truthy_false_of_isNone _ hfn
    have het : mo.exclude.truthy = false := truthy_false_of_isNone _ hen
    simp only [checkModelMeta, hm]
    rw [if_neg (by simp [habs]), if_neg (by simp [hft]),
      if_neg (by simp [het]), if_neg (by simp [hft]), if_pos ⟨hfn, hen⟩]

/-- Witness for C7 (amended) at concrete configurations: both options
non-empty is fatal; the sentinel configuration passes the gate and
generation proceeds. -/
theorem model_meta_gate_characterization_witness :
    checkModelMeta (some metaBothNonEmpty) =
      .error (.assertionError "Cannot set both fields and exclude options") ∧
    checkModelMeta (some metaAllFields) = .ok () ∧
    ModelSerializer.get_fields (some metaAllFields) (.ok []) = .ok [] := by
  refine ⟨?_, ?_, ?_⟩
  · exact (model_meta_gate_characterization (some metaBothNonEmpty)
      (.ok [])).2.2.2.2.2.2.1 metaBothNonEmpty { abstract := false }
      rfl rfl rfl rfl rfl rfl rfl
  · exact ((model_meta_gate_characterization (some metaAllFields)
      (.ok [])).1).mpr rfl
  · exact (model_meta_gate_characterization (some metaAllFields)
      (.ok [])).2.1 (((model_meta_gate_characterization (some metaAllFields)
      (.ok [])).1).mpr rfl)

end AioSerializers
